import Mathlib

/-!
Shallow embedding of the restic-PyBM orchestration core
(src/restic-PyBM.py, mainline lines 142-356 plus helper functions).

The external tool (restic) and the JSON decoder are modelled as an
abstract `World`: a deterministic map from a command string and an
environment to an invocation result, plus a map from stdout text to an
optional structured snapshot listing (`none` models a raised decode
error).  Uncaught Python exceptions (KeyError, IndexError, TypeError,
ValueError) are modelled by `Option`: a `none` result of a step aborts
the whole run, exactly as an uncaught exception does in the script.
-/

namespace ResticPyBM

/-- Resolved repository credentials: either a single passphrase (the
plain value of the `key` configuration entry) or a structured record
with keyID / applicationKey / password, as used for b2: and s3:
locations.  Environment values are also represented by this type,
since the script stores either shape into the environment dict. -/
inductive Credential where
  | plain (password : String)
  | keyed (keyID : String) (applicationKey : String) (password : String)
deriving DecidableEq, Repr

/-- One repository entry of the YAML configuration (values the script
reads from `repos[name]`).  `duplicate` is the optional name of the
source repository this one mirrors. -/
structure RepoConfig where
  location : String
  key : Credential
  duplicate : Option String := none
  max_age : Nat := 0
  min_age : Nat := 0
  includes : List String := []
  excludes : List String := []
deriving DecidableEq, Repr

/-- The environment dictionary `commandEnv`, modelled as an
association list where assignment prepends (lookup returns the most
recent binding, matching Python dict assignment semantics). -/
abbrev Env := List (String × Credential)

/-- Dict lookup: `commandEnv[k]`. -/
def envGet (env : Env) (k : String) : Option Credential :=
  match env with
  | [] => none
  | (k', v) :: rest => if k' = k then some v else envGet rest k

/-- Dict assignment: `commandEnv[k] = v`. -/
def envSet (env : Env) (k : String) (v : Credential) : Env :=
  (k, v) :: env

/-- `repos[name]` lookup over the ordered configuration. -/
def lookupRepo (repos : List (String × RepoConfig)) (name : String) :
    Option RepoConfig :=
  match repos with
  | [] => none
  | (n, c) :: rest => if n = name then some c else lookupRepo rest name

/-- The five CLI actions (argparse restricts `args.action` to these). -/
inductive Action where
  | run | create | list | prune | check
deriving DecidableEq, Repr

/-- The script arguments the orchestration core reads. -/
structure ScriptArgs where
  action : Action
  full : Bool := false
  age : Bool := false
deriving DecidableEq, Repr

/-- Lines 196-205: write the credential variables for the current
repository into the environment.  Indexing a plain string credential
with keyID / applicationKey / password raises TypeError in Python,
modelled as `none`. -/
def applyCredentials (cfg : RepoConfig) (cred : Credential) (env : Env) :
    Option Env :=
  if String.take cfg.location 3 = "b2:" then
    match cred with
    | Credential.keyed kid akey pw =>
        some (envSet (envSet (envSet env "B2_ACCOUNT_ID" (Credential.plain kid))
          "B2_ACCOUNT_KEY" (Credential.plain akey)) "RESTIC_PASSWORD" (Credential.plain pw))
    | Credential.plain _ => none
  else if String.take cfg.location 3 = "s3:" then
    match cred with
    | Credential.keyed kid akey pw =>
        some (envSet (envSet (envSet env "AWS_ACCESS_KEY_ID" (Credential.plain kid))
          "AWS_SECRET_ACCESS_KEY" (Credential.plain akey)) "RESTIC_PASSWORD" (Credential.plain pw))
    | Credential.plain _ => none
  else
    some (envSet env "RESTIC_PASSWORD" cred)

/-- Lines 207-219: for a duplicate-type repository, also fetch the
source repository key into RESTIC_PASSWORD2, and for the run action
swap RESTIC_PASSWORD and RESTIC_PASSWORD2. -/
def applyDuplicateCredentials (action : Action) (repos : List (String × RepoConfig))
    (cfg : RepoConfig) (env : Env) : Option Env :=
  match cfg.duplicate with
  | none => some env
  | some src =>
    match lookupRepo repos src with
    | none => none
    | some srcCfg =>
      let env1 := envSet env "RESTIC_PASSWORD2" srcCfg.key
      if action = Action.run then
        match envGet env1 "RESTIC_PASSWORD2", envGet env1 "RESTIC_PASSWORD" with
        | some p2, some p1 =>
            some (envSet (envSet env1 "RESTIC_PASSWORD2" p1) "RESTIC_PASSWORD" p2)
        | _, _ => none
      else some env1

/-- Lines 192-219 combined: the per-repository credential environment
preparation (non-vault path; `get_repo_password` returns
`repos[currentRepo].key`). -/
def prepareEnv (action : Action) (repos : List (String × RepoConfig))
    (cfg : RepoConfig) (env : Env) : Option Env :=
  match applyCredentials cfg cfg.key env with
  | none => none
  | some env1 => applyDuplicateCredentials action repos cfg env1

/-- A parsed wall-clock timestamp, the result of
`datetime.strptime(s, '%Y-%m-%dT%H:%M:%S')`. -/
structure Datetime where
  year : Nat
  month : Nat
  day : Nat
  hour : Nat
  minute : Nat
  second : Nat
deriving DecidableEq, Repr

/-- Greedily consume up to `maxN` leading decimal digits of `cs`,
accumulating their value onto `acc`. -/
def grabDigitsAux : Nat → Nat → List Char → Nat × List Char
  | 0, acc, cs => (acc, cs)
  | Nat.succ n, acc, cs =>
    match cs with
    | [] => (acc, [])
    | c :: rest =>
      if c.isDigit then grabDigitsAux n (10 * acc + (c.toNat - 48)) rest
      else (acc, cs)

/-- A numeric strptime directive of width up to `maxN`: at least one
digit is required, then up to `maxN` digits are consumed greedily. -/
def grabDigits (maxN : Nat) (cs : List Char) : Option (Nat × List Char) :=
  match cs with
  | [] => none
  | c :: _ => if c.isDigit then some (grabDigitsAux maxN 0 cs) else none

/-- The %Y directive: exactly four digits. -/
def grabDigits4 (cs : List Char) : Option (Nat × List Char) :=
  match cs with
  | a :: b :: c :: d :: rest =>
    if a.isDigit ∧ b.isDigit ∧ c.isDigit ∧ d.isDigit then
      some ((((a.toNat - 48) * 10 + (b.toNat - 48)) * 10 + (c.toNat - 48)) * 10
              + (d.toNat - 48), rest)
    else none
  | _ => none

/-- A literal character of the strptime format string. -/
def expectChar (c : Char) (cs : List Char) : Option (List Char) :=
  match cs with
  | [] => none
  | c' :: rest => if c' = c then some rest else none

/-- Proleptic-Gregorian leap-year test. -/
def isLeap (y : Nat) : Bool :=
  decide ((y % 4 = 0 ∧ y % 100 ≠ 0) ∨ y % 400 = 0)

/-- Number of days of month `mo` of year `y` (used by strptime range
validation). -/
def daysInMonth (y mo : Nat) : Nat :=
  if mo = 2 then (if isLeap y then 29 else 28)
  else if mo = 4 ∨ mo = 6 ∨ mo = 9 ∨ mo = 11 then 30
  else 31

/-- Model of `datetime.strptime(s, '%Y-%m-%dT%H:%M:%S')`: parse the
six numeric fields separated by the literal characters, require the
whole string to be consumed, and validate the calendar ranges
(ValueError is modelled as `none`). -/
def strptimeYmdHms (s : String) : Option Datetime :=
  match grabDigits4 s.toList with
  | none => none
  | some (y, cs1) =>
    match expectChar '-' cs1 with
    | none => none
    | some cs2 =>
      match grabDigits 2 cs2 with
      | none => none
      | some (mo, cs3) =>
        match expectChar '-' cs3 with
        | none => none
        | some cs4 =>
          match grabDigits 2 cs4 with
          | none => none
          | some (d, cs5) =>
            match expectChar 'T' cs5 with
            | none => none
            | some cs6 =>
              match grabDigits 2 cs6 with
              | none => none
              | some (h, cs7) =>
                match expectChar ':' cs7 with
                | none => none
                | some cs8 =>
                  match grabDigits 2 cs8 with
                  | none => none
                  | some (mi, cs9) =>
                    match expectChar ':' cs9 with
                    | none => none
                    | some cs10 =>
                      match grabDigits 2 cs10 with
                      | none => none
                      | some (sec, cs11) =>
                        if cs11 = [] ∧ 1 ≤ mo ∧ mo ≤ 12 ∧ 1 ≤ d ∧
                            d ≤ daysInMonth y mo ∧ h ≤ 23 ∧ mi ≤ 59 ∧ sec ≤ 59 then
                          some ⟨y, mo, d, h, mi, sec⟩
                        else none

/-- Days since 0000-03-01 of the proleptic Gregorian calendar
(standard civil-from-days computation; only differences of this count
are ever used, so the epoch offset is irrelevant). -/
def daysFromCivil (y mo d : Nat) : Nat :=
  let y' := if mo ≤ 2 then y - 1 else y
  let era := y' / 400
  let yoe := y' % 400
  let doy := (153 * (if 2 < mo then mo - 3 else mo + 9) + 2) / 5 + d - 1
  let doe := yoe * 365 + yoe / 4 - yoe / 100 + doy
  era * 146097 + doe

/-- Absolute second count of a Datetime, so that the difference of two
Datetimes is the `timedelta` between them in seconds. -/
def Datetime.toSecs (t : Datetime) : Nat :=
  86400 * daysFromCivil t.year t.month t.day + 3600 * t.hour + 60 * t.minute + t.second

/-- Zero-padded two-digit rendering (the minute and second parts of
Python str(timedelta)). -/
def pad2 (n : Nat) : String :=
  if n < 10 then "0" ++ toString n else toString n

/-- Python `str(timedelta)` for a delta of `total` seconds:
"H:MM:SS" optionally preceded by "D day(s), ". -/
def tdStr (total : Int) : String :=
  let days : Int := Int.ediv total 86400
  let rem : Nat := (Int.emod total 86400).toNat
  let h := rem / 3600
  let mi := rem % 3600 / 60
  let s := rem % 60
  let timePart := toString h ++ ":" ++ pad2 mi ++ ":" ++ pad2 s
  if days = 0 then timePart
  else toString days ++ (if days = 1 ∨ days = -1 then " day, " else " days, ") ++ timePart

/-- One record of the structured snapshot listing (only the `time`
field is read). -/
structure Snapshot where
  time : String
deriving DecidableEq, Repr

/-- One host group of the structured snapshot listing. -/
structure HostGroup where
  snapshots : List Snapshot
deriving DecidableEq, Repr

/-- Result of one subprocess invocation (`subprocess.run` never raises
for a non-zero exit). -/
structure InvocationResult where
  returncode : Int
  stdout : String
  stderr : String
deriving DecidableEq, Repr

/-- Lines 269-293: the snapshot-age evaluation of the check action.
`none` models the uncaught IndexError on an empty host-group list or
empty snapshot list (Python index 0 and index -1), or the uncaught
ValueError from strptime.  On success it returns the possibly
annotated invocation result together with the errorMessage value. -/
def ageEvaluate (currentRepo : String) (maxAge minAge : Nat) (now : Datetime)
    (snaps : List HostGroup) (res : InvocationResult) :
    Option (InvocationResult × String) :=
  match snaps with
  | [] => none
  | hg :: _ =>
    match hg.snapshots.head?, hg.snapshots.getLast? with
    | some oldest, some newest =>
      match strptimeYmdHms (String.take oldest.time 18),
            strptimeYmdHms (String.take newest.time 18) with
      | some oldestTime, some newestTime =>
        let oldDiff : Int := (now.toSecs : Int) - (oldestTime.toSecs : Int)
        let newDiff : Int := (now.toSecs : Int) - (newestTime.toSecs : Int)
        let errMsg : String :=
          if 86400 * (maxAge : Int) < oldDiff then
            "Oldest snapshot on " ++ currentRepo ++ " is " ++ tdStr oldDiff ++ " old"
          else ""
        if 86400 * (minAge : Int) < newDiff then
          some (res, "Newest snapshot on " ++ currentRepo ++ " is " ++ tdStr newDiff ++ " old")
        else
          some ({ res with stdout := res.stdout ++ "\n" ++
                    ("Newest snapshot age: " ++ tdStr newDiff) ++ "\n" ++
                    ("Oldest snapshot age: " ++ tdStr oldDiff) },
                errMsg)
      | _, _ => none
    | _, _ => none

/-- Which source call site issued an invocation (instrumentation of
the trace; the command strings themselves are built exactly as the
script builds them). -/
inductive InvSite where
  | primary | snapshotList | unlock
deriving DecidableEq, Repr

/-- One recorded call of `run_command`: the command string and the
environment it ran with. -/
structure Invocation where
  site : InvSite
  command : String
  env : Env
deriving DecidableEq, Repr

/-- The external world: `exec` models `run_command` (deterministic
result per command and environment), `parseJson` models
`json.loads` of subprocess stdout followed by reading the host-group
and snapshot structure (`none` models a raised decode, key or type
error). -/
structure World where
  exec : String → Env → InvocationResult
  parseJson : String → Option (List HostGroup)

/-- Lines 225-329, the action execution of one loop round: the extra
invocations issued, the environment after the round (the run action on
a duplicate repository mutates it at line 313), the final value of the
`result` variable, and the success and error messages.

The source has a bug-prone branch layout: line 225 is a plain `if`
while lines 237-307 form a separate if/elif/else chain, so for the
create action the first branch runs AND the final else branch of the
second chain runs afterwards, overwriting result and both messages.
This is modelled by `createPart` (invocations of the first chain) and
the match (second chain) in sequence, whose else arm covers both
`run` and `create`.

For the create-on-duplicate command the script reads
`repos[duplicateSource].location` (KeyError modelled as `none`); for
the run-on-duplicate branch it reads it too, and afterwards reads
`commandEnv["RESTIC_PASSWORD2"]`.

This definition is the create branch of lines 225-235: the init
invocation, with the repo-pairing parameters appended when the
repository is a duplicate target. -/
def createInvocations (rl : String) (repos : List (String × RepoConfig))
    (cfg : RepoConfig) (env : Env) : Option (List Invocation) :=
  match cfg.duplicate with
  | none => some [⟨InvSite.primary, rl ++ " init --repo " ++ cfg.location, env⟩]
  | some src =>
    match lookupRepo repos src with
    | none => none
    | some srcCfg =>
      some [⟨InvSite.primary, rl ++ " init --repo " ++ cfg.location ++
               " --repo2 " ++ srcCfg.location ++ " --copy-chunker-params", env⟩]

/-- The action dispatch: the create branch first (plain if), then the
second chain whose else arm covers both run and create. -/
def actionStep (rl : String) (repos : List (String × RepoConfig)) (args : ScriptArgs)
    (now : Datetime) (world : World) (currentRepo : String) (cfg : RepoConfig)
    (env : Env) : Option (List Invocation × Env × InvocationResult × String × String) :=
  match (if args.action = Action.create then createInvocations rl repos cfg env
         else some []) with
  | none => none
  | some invs0 =>
    match args.action with
    | Action.prune =>
      let cmd := rl ++ " forget --group-by host --keep-within " ++
        toString cfg.max_age ++ "d --prune --repo " ++ cfg.location
      some (invs0 ++ [⟨InvSite.primary, cmd, env⟩], env, world.exec cmd env,
        "Repository " ++ currentRepo ++ " clean up successful",
        "Error cleaning up repository " ++ currentRepo)
    | Action.check =>
      let cmd := (rl ++ " check --repo " ++ cfg.location) ++
        (if args.full then " --read-data" else "")
      let r := world.exec cmd env
      let healthy := "Repository " ++ currentRepo ++ " is healthy"
      if r.returncode ≠ 0 then
        some (invs0 ++ [⟨InvSite.primary, cmd, env⟩], env, r, healthy,
          "Error checking repository " ++ currentRepo)
      else if args.age then
        let cmd2 := rl ++ " snapshots --json --group-by host --repo " ++ cfg.location
        let r2 := world.exec cmd2 env
        if r2.returncode ≠ 0 then
          some (invs0 ++ [⟨InvSite.primary, cmd, env⟩, ⟨InvSite.snapshotList, cmd2, env⟩],
            env,
            { r with stderr := r.stderr ++ "\n" ++ r2.stderr, returncode := 2 },
            healthy, "Error getting snapshots for repository " ++ currentRepo)
        else
          match world.parseJson r2.stdout with
          | none => none
          | some snaps =>
            match ageEvaluate currentRepo cfg.max_age cfg.min_age now snaps r with
            | none => none
            | some (r', errMsg) =>
              some (invs0 ++ [⟨InvSite.primary, cmd, env⟩, ⟨InvSite.snapshotList, cmd2, env⟩],
                env, r', healthy, errMsg)
      else
        some (invs0 ++ [⟨InvSite.primary, cmd, env⟩], env, r, healthy, "")
    | Action.list =>
      let cmd := rl ++ " snapshots --group-by host --repo " ++ cfg.location
      some (invs0 ++ [⟨InvSite.primary, cmd, env⟩], env, world.exec cmd env,
        "Snapshot list retreived for repository " ++ currentRepo,
        "Error listing snapshots on repository " ++ cfg.location)
    | _ =>
      match cfg.duplicate with
      | some src =>
        match lookupRepo repos src with
        | none => none
        | some srcCfg =>
          let cmd := rl ++ " copy --repo2 " ++ cfg.location ++ " --repo " ++ srcCfg.location
          let r := world.exec cmd env
          match envGet env "RESTIC_PASSWORD2" with
          | none => none
          | some p2 =>
            some (invs0 ++ [⟨InvSite.primary, cmd, env⟩],
              envSet env "RESTIC_PASSWORD" p2, r,
              "Snapshot successfully created on repository " ++ currentRepo,
              "Error creating new snapshot on repository " ++ cfg.location)
      | none =>
        let cmd0 := rl ++ " backup --exclude \x27lost+found\x27 --repo " ++ cfg.location
        let cmd1 := List.foldl (fun c folder => c ++ " " ++ folder) cmd0 cfg.includes
        let cmd := List.foldl (fun c folder => c ++ " --exclude=\"" ++ folder ++ "\"")
          cmd1 cfg.excludes
        some (invs0 ++ [⟨InvSite.primary, cmd, env⟩], env, world.exec cmd env,
          "Snapshot successfully created on repository " ++ currentRepo,
          "Error creating new snapshot on repository " ++ cfg.location)

/-- Everything one loop round (lines 190-345) produces: the recorded
invocations (the mandatory unlock of lines 339-341 is the last one),
the environment handed to the next round, the final `result` value,
the two messages, and the unlock result. -/
structure StepOut where
  invocations : List Invocation
  env : Env
  result : InvocationResult
  successMessage : String
  errorMessage : String
  unlockResult : InvocationResult
deriving DecidableEq, Repr

/-- One round of the main loop for repository `currentRepo`:
credential environment preparation, action execution, then the
mandatory unlock invocation. -/
def processRepo (rl : String) (repos : List (String × RepoConfig)) (args : ScriptArgs)
    (now : Datetime) (world : World) (env0 : Env) (currentRepo : String) :
    Option StepOut :=
  match lookupRepo repos currentRepo with
  | none => none
  | some cfg =>
    match prepareEnv args.action repos cfg env0 with
    | none => none
    | some env =>
      match actionStep rl repos args now world currentRepo cfg env with
      | none => none
      | some (invs, env', r, succMsg, errMsg) =>
        let unlockCmd := rl ++ " unlock --repo " ++ cfg.location
        let ru := world.exec unlockCmd env'
        some { invocations := invs ++ [⟨InvSite.unlock, unlockCmd, env'⟩],
               env := env', result := r, successMessage := succMsg,
               errorMessage := errMsg, unlockResult := ru }

/-- The accumulation variables of lines 182-187. -/
structure BatchState where
  successMessageAccumulated : String
  errorMessageAccumulated : String
  stdoutAccumulated : String
  stderrAccumulated : String
  scriptReturnValue : Nat
deriving DecidableEq, Repr

/-- Initial values of the accumulation variables (lines 183-187). -/
def initialState : BatchState := ⟨"", "", "", "", 0⟩

/-- Lines 331-345 minus the unlock invocation itself: fold one
round's outputs into the accumulators (message and output
concatenation, then the status updates in source order: primary
failure sets 2, then an unlock failure raises a value below 2 to 1). -/
def foldStep (st : BatchState) (so : StepOut) : BatchState :=
  let srv1 := if so.result.returncode ≠ 0 then 2 else st.scriptReturnValue
  let srv2 := if srv1 < 2 ∧ so.unlockResult.returncode ≠ 0 then 1 else srv1
  { successMessageAccumulated := st.successMessageAccumulated ++ so.successMessage ++ ". ",
    errorMessageAccumulated := st.errorMessageAccumulated ++ so.errorMessage ++ ". ",
    stdoutAccumulated := st.stdoutAccumulated ++ so.result.stdout ++ so.unlockResult.stdout,
    stderrAccumulated := st.stderrAccumulated ++ so.result.stderr ++ so.unlockResult.stderr,
    scriptReturnValue := srv2 }

/-- The main loop (lines 190-345) over the selected repository names,
threading the mutable environment and the accumulators; also returns
the per-round outputs for specification purposes.  A `none` models an
uncaught exception aborting the whole run. -/
def runRepos (rl : String) (repos : List (String × RepoConfig)) (args : ScriptArgs)
    (now : Datetime) (world : World) :
    Env → List String → BatchState → Option (BatchState × Env × List StepOut)
  | env, [], st => some (st, env, [])
  | env, n :: rest, st =>
    match processRepo rl repos args now world env n with
    | none => none
    | some so =>
      match runRepos rl repos args now world so.env rest (foldStep st so) with
      | none => none
      | some (stF, envF, outs) => some (stF, envF, so :: outs)

/-- Line 167-171: the list of repositories to process. -/
def reposToProcess (repos : List (String × RepoConfig)) (repoArg : String) :
    List String :=
  if repoArg = "ALL_REPOS" then repos.map (fun e => e.1) else [repoArg]

/-- The process exit code chosen by `end_script` from the final
`scriptReturnValue` (lines 117-139). -/
def endScriptCode (returnCode : Nat) : Nat :=
  if returnCode = 2 then 2 else if returnCode = 1 then 1 else 0

/-- The status contributed by one repository round under the
Success(0) < Warning(1) < Critical(2) ordering: Critical when the
primary action failed, Warning when only the unlock failed. -/
def repoStatus (so : StepOut) : Nat :=
  if so.result.returncode ≠ 0 then 2
  else if so.unlockResult.returncode ≠ 0 then 1
  else 0

/-! ### Concrete scenarios used by the individual claim theorems -/

/-- A world in which every invocation succeeds silently and the
snapshot listing holds one host group with an oldest snapshot of
2021-02-01 and a newest snapshot of 2021-03-04 (noon). -/
def worldAllOk : World :=
  { exec := fun _ _ => ⟨0, "", ""⟩,
    parseJson := fun _ =>
      some [⟨[⟨"2021-02-01T12:00:00Z"⟩, ⟨"2021-03-04T12:00:00Z"⟩]⟩] }

/-- Noon of 2021-03-04, used as the current time of the scenarios. -/
def nowRef : Datetime := ⟨2021, 3, 4, 12, 0, 0⟩

/-- A single plain repository with thresholds max_age 30 / min_age 1,
whose oldest snapshot (under worldAllOk) is 31 days old and whose
newest is 0 days old. -/
def reposAged : List (String × RepoConfig) :=
  [("r1", { location := "/srv/r1", key := Credential.plain "pw1",
            max_age := 30, min_age := 1 })]

/-- C1: for the check action with age checking, an oldest snapshot of
31 days with max_age 30 leaves scriptReturnValue at 0 (process exit
code 0, an OK verdict) even though the oldest-snapshot warning message
was produced: the age evaluation writes errorMessage but never raises
the status, so the claimed Warning (exit status 1) never happens. -/
theorem age_warning_exits_ok :
    (runRepos "restic" reposAged ⟨Action.check, false, true⟩ nowRef worldAllOk
        [] ["r1"] initialState).map
      (fun x => (x.1.scriptReturnValue,
                 endScriptCode x.1.scriptReturnValue,
                 x.1.errorMessageAccumulated)) =
    some (0, 0, "Oldest snapshot on r1 is 31 days, 0:00:00 old. ") := by
  decide

/-- A single plain repository with one include folder. -/
def reposPlain : List (String × RepoConfig) :=
  [("r1", { location := "/srv/r1", key := Credential.plain "pw1",
            includes := ["/home"] })]

/-- C2: the create action issues the init invocation AND a backup
invocation (line 225 is a plain if while lines 237-307 are a separate
if/elif/else chain whose else catches create), and the reported
success message is the run-action template, not the create one. -/
theorem create_also_runs_backup :
    (runRepos "restic" reposPlain ⟨Action.create, false, false⟩ nowRef worldAllOk
        [] ["r1"] initialState).map
      (fun x => x.2.2.map (fun so => (so.invocations.map Invocation.command,
                                      so.successMessage))) =
    some [(["restic init --repo /srv/r1",
            "restic backup --exclude \x27lost+found\x27 --repo /srv/r1 /home",
            "restic unlock --repo /srv/r1"],
           "Snapshot successfully created on repository r1")] := by
  decide

/-- A b2-backed repository followed by a plain local repository. -/
def reposMixed : List (String × RepoConfig) :=
  [("r1", { location := "b2:bucket1", key := Credential.keyed "kid1" "ak1" "pw1" }),
   ("r2", { location := "/srv/r2", key := Credential.plain "pw2",
            includes := ["/data"] })]

/-- C3: the credential environment is only added to, never cleared:
after the b2-backed repository r1 is processed, the plain repository
r2's primary backup invocation still carries r1's B2_ACCOUNT_ID and
B2_ACCOUNT_KEY in its environment, so a later repository's invocation
environment does depend on its predecessors. -/
theorem b2_credentials_leak_to_next_repo :
    (match runRepos "restic" reposMixed ⟨Action.run, false, false⟩ nowRef worldAllOk
        [] ["r1", "r2"] initialState with
     | some (_, _, [_, so2]) =>
        so2.invocations.head?.map (fun i =>
          (envGet (Invocation.env i) "B2_ACCOUNT_ID",
           envGet (Invocation.env i) "B2_ACCOUNT_KEY",
           envGet (Invocation.env i) "RESTIC_PASSWORD"))
     | _ => none) =
    some (some (Credential.plain "kid1"), some (Credential.plain "ak1"),
          some (Credential.plain "pw2")) := by
  decide

/-- A world whose snapshot listing is empty (the JSON text decodes to
an empty sequence of host groups). -/
def worldEmptyListing : World :=
  { exec := fun _ _ => ⟨0, "", ""⟩, parseJson := fun _ => some [] }

/-- C4: with an empty structured snapshot listing, the check action's
age evaluation hits the uncaught IndexError of snaps[0]: the whole run
aborts (no Critical status is recorded, the unlock of r1 is skipped,
and the second repository r2 is never processed). -/
theorem empty_snapshot_listing_crashes_run :
    runRepos "restic" reposMixed ⟨Action.check, false, true⟩ nowRef
      worldEmptyListing [] ["r1", "r2"] initialState = none := by
  decide

/-! ### Status fold: one step -/

/-- One fold step updates the running status to the maximum of the old
value and the round's contributed status. -/
theorem foldStep_scriptReturnValue (st : BatchState) (so : StepOut)
    (h : st.scriptReturnValue ≤ 2) :
    (foldStep st so).scriptReturnValue =
      max st.scriptReturnValue (repoStatus so) := by
  simp only [foldStep, repoStatus]
  split_ifs <;> omega

/-- Each round's contributed status is at most Critical. -/
theorem repoStatus_le_two (so : StepOut) : repoStatus so ≤ 2 := by
  simp only [repoStatus]
  split_ifs <;> omega

/-- The running status stays bounded by 2. -/
theorem foldStep_le_two (st : BatchState) (so : StepOut)
    (h : st.scriptReturnValue ≤ 2) :
    (foldStep st so).scriptReturnValue ≤ 2 := by
  rw [foldStep_scriptReturnValue st so h]
  have h2 := repoStatus_le_two so
  omega

/-- C6: over any batch run, the final aggregated status equals the
fold by maximum of the per-repository statuses (Success 0 < Warning 1
< Critical 2) onto the starting value, and the running accumulator
never decreases as repositories are processed in order. -/
theorem final_status_is_max_of_repo_statuses (rl : String)
    (repos : List (String × RepoConfig)) (args : ScriptArgs) (now : Datetime)
    (world : World) :
    ∀ (names : List String) (env : Env) (st0 stF : BatchState) (envF : Env)
      (outs : List StepOut),
      st0.scriptReturnValue ≤ 2 →
      runRepos rl repos args now world env names st0 = some (stF, envF, outs) →
      stF.scriptReturnValue =
        List.foldl (fun a so => max a (repoStatus so)) st0.scriptReturnValue outs ∧
      st0.scriptReturnValue ≤ stF.scriptReturnValue := by
  intro names
  induction names with
  | nil =>
    intro env st0 stF envF outs _ h
    simp only [runRepos, Option.some.injEq, Prod.mk.injEq] at h
    obtain ⟨h1, _, h3⟩ := h
    subst h1; subst h3
    exact ⟨rfl, Nat.le_refl _⟩
  | cons n rest ih =>
    intro env st0 stF envF outs hb h
    simp only [runRepos] at h
    cases hp : processRepo rl repos args now world env n with
    | none => simp only [hp] at h; exact Option.noConfusion h
    | some so =>
      simp only [hp] at h
      cases hr : runRepos rl repos args now world so.env rest (foldStep st0 so) with
      | none => simp only [hr] at h; exact Option.noConfusion h
      | some res =>
        obtain ⟨stF', envF', outs'⟩ := res
        simp only [hr, Option.some.injEq, Prod.mk.injEq] at h
        obtain ⟨h1, h2, h3⟩ := h
        subst h1; subst h2; subst h3
        have hb' := foldStep_le_two st0 so hb
        obtain ⟨ihEq, ihLe⟩ := ih so.env (foldStep st0 so) stF' envF' outs' hb' hr
        constructor
        · rw [ihEq, List.foldl_cons, foldStep_scriptReturnValue st0 so hb]
        · calc st0.scriptReturnValue
              ≤ (foldStep st0 so).scriptReturnValue := by
                rw [foldStep_scriptReturnValue st0 so hb]; exact Nat.le_max_left _ _
            _ ≤ stF'.scriptReturnValue := ihLe

/-- Two plain repositories; used to witness the status-fold theorem. -/
def reposC6w : List (String × RepoConfig) :=
  [("r1", { location := "/srv/r1", key := Credential.plain "pw1", includes := ["/a"] }),
   ("r2", { location := "/srv/r2", key := Credential.plain "pw2", includes := ["/b"] })]

/-- A world failing r1's unlock (Warning) and r2's backup (Critical). -/
def worldC6w : World :=
  { exec := fun cmd _ =>
      if cmd = "restic unlock --repo /srv/r1" then ⟨3, "", "lock stuck"⟩
      else if cmd = "restic backup --exclude \x27lost+found\x27 --repo /srv/r2 /b" then
        ⟨1, "", "backup failed"⟩
      else ⟨0, "", ""⟩,
    parseJson := fun _ => none }

/-- The concrete batch result of the C6 witness run. -/
def batchC6w : BatchState × Env × List StepOut :=
  match runRepos "restic" reposC6w ⟨Action.run, false, false⟩ ⟨2021, 3, 4, 12, 0, 0⟩
      worldC6w [] ["r1", "r2"] initialState with
  | some x => x
  | none => (initialState, [], [])

/-- Witness for C6 at a concrete two-repository run (Warning then
Critical, final status 2). -/
theorem final_status_is_max_of_repo_statuses_witness :
    batchC6w.1.scriptReturnValue =
      List.foldl (fun a so => max a (repoStatus so))
        initialState.scriptReturnValue batchC6w.2.2 ∧
    initialState.scriptReturnValue ≤ batchC6w.1.scriptReturnValue :=
  final_status_is_max_of_repo_statuses "restic" reposC6w ⟨Action.run, false, false⟩
    ⟨2021, 3, 4, 12, 0, 0⟩ worldC6w ["r1", "r2"] [] initialState
    batchC6w.1 batchC6w.2.1 batchC6w.2.2 (by decide) (by decide)

/-- C7: for a single-repository run, a failed primary invocation
dominates (status Critical even when the unlock also fails), a failed
unlock alone demotes the result only to Warning, and the unlock's
stderr always reaches the accumulated run output. -/
theorem failure_precedence_critical_over_warning (rl : String)
    (repos : List (String × RepoConfig)) (args : ScriptArgs) (now : Datetime)
    (world : World) (env0 : Env) (name : String) (stF : BatchState) (envF : Env)
    (so : StepOut)
    (h : runRepos rl repos args now world env0 [name] initialState =
      some (stF, envF, [so])) :
    ((so.result.returncode ≠ 0 ∧ so.unlockResult.returncode ≠ 0) →
       stF.scriptReturnValue = 2) ∧
    ((so.result.returncode = 0 ∧ so.unlockResult.returncode ≠ 0) →
       stF.scriptReturnValue = 1) ∧
    stF.stderrAccumulated = so.result.stderr ++ so.unlockResult.stderr := by
  simp only [runRepos] at h
  cases hp : processRepo rl repos args now world env0 name with
  | none => simp only [hp] at h; exact Option.noConfusion h
  | some so' =>
    simp only [hp, Option.some.injEq, Prod.mk.injEq, List.cons.injEq,
      and_true] at h
    obtain ⟨h1, _, h3⟩ := h
    subst h3; subst h1
    refine ⟨?_, ?_, ?_⟩
    · rintro ⟨hr, hu⟩
      simp only [foldStep, initialState]
      split_ifs <;> omega
    · rintro ⟨hr, hu⟩
      simp only [foldStep, initialState]
      split_ifs <;> omega
    · simp only [foldStep, initialState]
      rw [String.empty_append]

/-- Single repository whose primary and unlock invocations both fail;
used to witness the failure-precedence theorem. -/
def reposC7w : List (String × RepoConfig) :=
  [("r1", { location := "/srv/r1", key := Credential.plain "pw1", includes := ["/a"] })]

/-- A world in which every invocation fails with distinct stderr. -/
def worldC7w : World :=
  { exec := fun cmd _ =>
      if cmd = "restic unlock --repo /srv/r1" then ⟨1, "", "unlock-err"⟩
      else ⟨1, "out", "primary-err"⟩,
    parseJson := fun _ => none }

/-- The concrete batch result of the C7 witness run. -/
def batchC7w : BatchState × Env × List StepOut :=
  match runRepos "restic" reposC7w ⟨Action.run, false, false⟩ ⟨2021, 3, 4, 12, 0, 0⟩
      worldC7w [] ["r1"] initialState with
  | some x => x
  | none => (initialState, [], [])

/-- The single round of the C7 witness run. -/
def soC7w : StepOut :=
  match batchC7w.2.2 with
  | [so] => so
  | _ => ⟨[], [], ⟨0, "", ""⟩, "", "", ⟨0, "", ""⟩⟩

/-- Witness for C7: both invocations fail, so the final status is
Critical and the unlock stderr is in the accumulated output. -/
theorem failure_precedence_witness :
    ((soC7w.result.returncode ≠ 0 ∧ soC7w.unlockResult.returncode ≠ 0) →
       batchC7w.1.scriptReturnValue = 2) ∧
    ((soC7w.result.returncode = 0 ∧ soC7w.unlockResult.returncode ≠ 0) →
       batchC7w.1.scriptReturnValue = 1) ∧
    batchC7w.1.stderrAccumulated = soC7w.result.stderr ++ soC7w.unlockResult.stderr :=
  failure_precedence_critical_over_warning "restic" reposC7w ⟨Action.run, false, false⟩
    ⟨2021, 3, 4, 12, 0, 0⟩ worldC7w [] "r1" batchC7w.1 batchC7w.2.1 soC7w (by decide)

/-! ### Unlock discipline -/

/-- The create-branch invocations all come from the primary call
site. -/
theorem createInvocations_sites (rl : String) (repos : List (String × RepoConfig))
    (cfg : RepoConfig) (env : Env) (invs0 : List Invocation)
    (h : createInvocations rl repos cfg env = some invs0) :
    ∀ i ∈ invs0, Invocation.site i = InvSite.primary := by
  simp only [createInvocations] at h
  repeat' split at h
  all_goals
    first
    | exact Option.noConfusion h
    | (obtain rfl := (Option.some.injEq _ _).mp h
       intro i hi
       simp only [List.mem_singleton] at hi
       subst hi
       rfl)

/-- Closing step: a primary-only prefix extended by one primary
invocation has no unlock invocation and has a primary one. -/
theorem sites_append_one (invs0 : List Invocation)
    (h0 : ∀ i ∈ invs0, Invocation.site i = InvSite.primary) (cmd : String) (e : Env) :
    (∀ i ∈ invs0 ++ [⟨InvSite.primary, cmd, e⟩], Invocation.site i ≠ InvSite.unlock) ∧
    (∃ i ∈ invs0 ++ [⟨InvSite.primary, cmd, e⟩], Invocation.site i = InvSite.primary) := by
  constructor
  · intro i hi
    rcases List.mem_append.mp hi with hl | hr
    · rw [h0 i hl]; intro hcon; exact InvSite.noConfusion hcon
    · simp only [List.mem_singleton] at hr
      subst hr
      intro hcon; exact InvSite.noConfusion hcon
  · exact ⟨⟨InvSite.primary, cmd, e⟩,
      List.mem_append_right _ (List.mem_singleton_self _), rfl⟩

/-- Closing step: the same with the snapshot-listing invocation of the
check action appended as well. -/
theorem sites_append_two (invs0 : List Invocation)
    (h0 : ∀ i ∈ invs0, Invocation.site i = InvSite.primary)
    (cmd cmd2 : String) (e : Env) :
    (∀ i ∈ invs0 ++ [⟨InvSite.primary, cmd, e⟩, ⟨InvSite.snapshotList, cmd2, e⟩],
        Invocation.site i ≠ InvSite.unlock) ∧
    (∃ i ∈ invs0 ++ [⟨InvSite.primary, cmd, e⟩, ⟨InvSite.snapshotList, cmd2, e⟩],
        Invocation.site i = InvSite.primary) := by
  constructor
  · intro i hi
    rcases List.mem_append.mp hi with hl | hr
    · rw [h0 i hl]; intro hcon; exact InvSite.noConfusion hcon
    · simp only [List.mem_cons, List.not_mem_nil, or_false] at hr
      rcases hr with rfl | rfl <;> (intro hcon; exact InvSite.noConfusion hcon)
  · exact ⟨⟨InvSite.primary, cmd, e⟩,
      List.mem_append_right _ (List.mem_cons_self _ _), rfl⟩

/-- The action-execution invocations never include an unlock
invocation, and always include a primary one. -/
theorem actionStep_sites (rl : String) (repos : List (String × RepoConfig))
    (args : ScriptArgs) (now : Datetime) (world : World) (name : String)
    (cfg : RepoConfig) (env : Env)
    (out : List Invocation × Env × InvocationResult × String × String)
    (h : actionStep rl repos args now world name cfg env = some out) :
    (∀ i ∈ out.1, Invocation.site i ≠ InvSite.unlock) ∧
    (∃ i ∈ out.1, Invocation.site i = InvSite.primary) := by
  obtain ⟨act, fl, ag⟩ := args
  have hnil : ∀ i ∈ ([] : List Invocation), Invocation.site i = InvSite.primary :=
    fun i hi => absurd hi (List.not_mem_nil i)
  cases act with
  | create =>
    cases hc : createInvocations rl repos cfg env with
    | none =>
      simp only [actionStep, reduceIte, hc] at h
      exact Option.noConfusion h
    | some invs0 =>
      simp only [actionStep, reduceIte, hc] at h
      have hinvs0 := createInvocations_sites rl repos cfg env invs0 hc
      repeat' split at h
      all_goals
        first
        | exact Option.noConfusion h
        | (obtain rfl := (Option.some.injEq _ _).mp h
           exact sites_append_one _ hinvs0 _ _)
  | check =>
    simp only [actionStep, reduceCtorEq, reduceIte] at h
    repeat' split at h
    all_goals
      first
      | exact Option.noConfusion h
      | (obtain rfl := (Option.some.injEq _ _).mp h
         exact sites_append_one _ hnil _ _)
      | (obtain rfl := (Option.some.injEq _ _).mp h
         exact sites_append_two _ hnil _ _ _)
  | run =>
    simp only [actionStep, reduceCtorEq, reduceIte] at h
    repeat' split at h
    all_goals
      first
      | exact Option.noConfusion h
      | (obtain rfl := (Option.some.injEq _ _).mp h
         exact sites_append_one _ hnil _ _)
  | list =>
    simp only [actionStep, reduceCtorEq, reduceIte] at h
    obtain rfl := (Option.some.injEq _ _).mp h
    exact sites_append_one _ hnil _ _
  | prune =>
    simp only [actionStep, reduceCtorEq, reduceIte] at h
    obtain rfl := (Option.some.injEq _ _).mp h
    exact sites_append_one _ hnil _ _

/-- C5: for every repository round that completes, the unlock
invocation is recorded exactly once, as the very last invocation of
the round (hence strictly after the primary invocation, which is
always present), whatever the primary invocation returned. -/
theorem unlock_exactly_once_after_primary (rl : String)
    (repos : List (String × RepoConfig)) (args : ScriptArgs) (now : Datetime)
    (world : World) (env0 : Env) (name : String) (cfg : RepoConfig) (so : StepOut)
    (hc : lookupRepo repos name = some cfg)
    (h : processRepo rl repos args now world env0 name = some so) :
    so.invocations.getLast? =
      some ⟨InvSite.unlock, rl ++ " unlock --repo " ++ cfg.location, so.env⟩ ∧
    (∀ i ∈ so.invocations.dropLast, Invocation.site i ≠ InvSite.unlock) ∧
    (∃ i ∈ so.invocations.dropLast, Invocation.site i = InvSite.primary) := by
  simp only [processRepo, hc] at h
  cases hp : prepareEnv args.action repos cfg env0 with
  | none => simp only [hp] at h; exact Option.noConfusion h
  | some env =>
    simp only [hp] at h
    cases ha : actionStep rl repos args now world name cfg env with
    | none => simp only [ha] at h; exact Option.noConfusion h
    | some out =>
      simp only [ha] at h
      obtain ⟨invs, env2, r, sm, em⟩ := out
      obtain rfl := (Option.some.injEq _ _).mp h
      have hsites := actionStep_sites rl repos args now world name cfg env
        (invs, env2, r, sm, em) ha
      refine ⟨List.getLast?_concat _, ?_, ?_⟩
      · rw [List.dropLast_concat]
        exact hsites.1
      · rw [List.dropLast_concat]
        exact hsites.2

/-- Repository used to witness the unlock theorem (the primary
invocation fails, the unlock still runs last). -/
def reposC5w : List (String × RepoConfig) :=
  [("r1", { location := "/srv/r1", key := Credential.plain "pw1", includes := ["/a"] })]

/-- Every invocation of this world fails. -/
def worldC5w : World :=
  { exec := fun _ _ => ⟨1, "", "boom"⟩, parseJson := fun _ => none }

/-- The single round of the C5 witness run. -/
def soC5w : StepOut :=
  match processRepo "restic" reposC5w ⟨Action.run, false, false⟩ ⟨2021, 3, 4, 12, 0, 0⟩
      worldC5w [] "r1" with
  | some so => so
  | none => ⟨[], [], ⟨0, "", ""⟩, "", "", ⟨0, "", ""⟩⟩

/-- Witness for C5 at a concrete failing run. -/
theorem unlock_exactly_once_after_primary_witness :
    soC5w.invocations.getLast? =
      some ⟨InvSite.unlock, "restic" ++ " unlock --repo " ++ "/srv/r1", soC5w.env⟩ ∧
    (∀ i ∈ soC5w.invocations.dropLast, Invocation.site i ≠ InvSite.unlock) ∧
    (∃ i ∈ soC5w.invocations.dropLast, Invocation.site i = InvSite.primary) :=
  unlock_exactly_once_after_primary "restic" reposC5w ⟨Action.run, false, false⟩
    ⟨2021, 3, 4, 12, 0, 0⟩ worldC5w [] "r1"
    ⟨"/srv/r1", Credential.plain "pw1", none, 0, 0, ["/a"], []⟩ soC5w
    (by decide) (by decide)

/-! ### Single-snapshot age evaluation -/

/-- C8: for a listing whose first host group holds exactly one
snapshot, the age evaluation does not crash (returns some) and checks
both the min_age threshold and the max_age threshold against that
single parsed timestamp. -/
theorem single_snapshot_age_check_no_crash (currentRepo : String)
    (maxAge minAge : Nat) (now : Datetime) (s : Snapshot) (t : Datetime)
    (res : InvocationResult)
    (hp : strptimeYmdHms (String.take s.time 18) = some t) :
    ageEvaluate currentRepo maxAge minAge now [⟨[s]⟩] res =
      some (if 86400 * (minAge : Int) < (now.toSecs : Int) - (t.toSecs : Int) then
              (res, "Newest snapshot on " ++ currentRepo ++ " is " ++
                tdStr ((now.toSecs : Int) - (t.toSecs : Int)) ++ " old")
            else
              ({ res with stdout := res.stdout ++ "\n" ++
                   ("Newest snapshot age: " ++
                     tdStr ((now.toSecs : Int) - (t.toSecs : Int))) ++ "\n" ++
                   ("Oldest snapshot age: " ++
                     tdStr ((now.toSecs : Int) - (t.toSecs : Int))) },
               if 86400 * (maxAge : Int) < (now.toSecs : Int) - (t.toSecs : Int) then
                 "Oldest snapshot on " ++ currentRepo ++ " is " ++
                   tdStr ((now.toSecs : Int) - (t.toSecs : Int)) ++ " old"
               else "")) := by
  simp only [ageEvaluate, List.head?_cons, List.getLast?_singleton, hp]
  split <;> rfl

/-- Witness for C8: a concrete one-snapshot repository, 3 days old
against thresholds 30 / 1 (the newest check fires). -/
theorem single_snapshot_age_check_no_crash_witness :
    ageEvaluate "r1" 30 1 ⟨2021, 3, 4, 12, 0, 0⟩ [⟨[⟨"2021-03-01T10:00:00Z"⟩]⟩]
        ⟨0, "", ""⟩ =
      some (if 86400 * ((1 : Nat) : Int) <
              ((Datetime.toSecs ⟨2021, 3, 4, 12, 0, 0⟩ : Int) -
               (Datetime.toSecs ⟨2021, 3, 1, 10, 0, 0⟩ : Int)) then
              (⟨0, "", ""⟩, "Newest snapshot on " ++ "r1" ++ " is " ++
                tdStr ((Datetime.toSecs ⟨2021, 3, 4, 12, 0, 0⟩ : Int) -
                       (Datetime.toSecs ⟨2021, 3, 1, 10, 0, 0⟩ : Int)) ++ " old")
            else
              ({ InvocationResult.mk 0 "" "" with
                   stdout := "" ++ "\n" ++
                     ("Newest snapshot age: " ++
                       tdStr ((Datetime.toSecs ⟨2021, 3, 4, 12, 0, 0⟩ : Int) -
                              (Datetime.toSecs ⟨2021, 3, 1, 10, 0, 0⟩ : Int))) ++ "\n" ++
                     ("Oldest snapshot age: " ++
                       tdStr ((Datetime.toSecs ⟨2021, 3, 4, 12, 0, 0⟩ : Int) -
                              (Datetime.toSecs ⟨2021, 3, 1, 10, 0, 0⟩ : Int))) },
               if 86400 * ((30 : Nat) : Int) <
                   ((Datetime.toSecs ⟨2021, 3, 4, 12, 0, 0⟩ : Int) -
                    (Datetime.toSecs ⟨2021, 3, 1, 10, 0, 0⟩ : Int)) then
                 "Oldest snapshot on " ++ "r1" ++ " is " ++
                   tdStr ((Datetime.toSecs ⟨2021, 3, 4, 12, 0, 0⟩ : Int) -
                          (Datetime.toSecs ⟨2021, 3, 1, 10, 0, 0⟩ : Int)) ++ " old"
               else "")) :=
  single_snapshot_age_check_no_crash "r1" 30 1 ⟨2021, 3, 4, 12, 0, 0⟩
    ⟨"2021-03-01T10:00:00Z"⟩ ⟨2021, 3, 1, 10, 0, 0⟩ ⟨0, "", ""⟩ (by decide)

/-! ### Passphrase swap of the duplicate run action -/

/-- Lookup hits the most recent binding of the key. -/
theorem envGet_set_self (env : Env) (k : String) (v : Credential) :
    envGet (envSet env k v) k = some v := by
  simp [envGet, envSet]

/-- Lookup skips a binding of a different key. -/
theorem envGet_set_ne (env : Env) (k0 k : String) (v : Credential) (h : k0 ≠ k) :
    envGet (envSet env k0 v) k = envGet env k := by
  simp [envGet, envSet, h]

/-- C9: on a duplicate-target repository with plain passphrases, the
run action's primary (copy) invocation runs with RESTIC_PASSWORD set
to the source repository's passphrase and RESTIC_PASSWORD2 to the
target's, while the create action's primary (init) invocation runs
with the reverse assignment. -/
theorem duplicate_run_swaps_passphrases (rl : String)
    (repos : List (String × RepoConfig)) (flR agR flC agC : Bool) (now : Datetime)
    (world : World) (env0 : Env) (name srcName : String) (cfg srcCfg : RepoConfig)
    (p1 p2 : String) (soR soC : StepOut)
    (hc : lookupRepo repos name = some cfg)
    (hd : cfg.duplicate = some srcName)
    (hsrc : lookupRepo repos srcName = some srcCfg)
    (hk : cfg.key = Credential.plain p1)
    (hks : srcCfg.key = Credential.plain p2)
    (hb : String.take cfg.location 3 ≠ "b2:")
    (hs3 : String.take cfg.location 3 ≠ "s3:")
    (hR : processRepo rl repos ⟨Action.run, flR, agR⟩ now world env0 name = some soR)
    (hC : processRepo rl repos ⟨Action.create, flC, agC⟩ now world env0 name = some soC) :
    (soR.invocations.head?.map (fun i =>
        (envGet (Invocation.env i) "RESTIC_PASSWORD",
         envGet (Invocation.env i) "RESTIC_PASSWORD2"))) =
      some (some (Credential.plain p2), some (Credential.plain p1)) ∧
    (soC.invocations.head?.map (fun i =>
        (envGet (Invocation.env i) "RESTIC_PASSWORD",
         envGet (Invocation.env i) "RESTIC_PASSWORD2"))) =
      some (some (Credential.plain p1), some (Credential.plain p2)) := by
  have hne : ("RESTIC_PASSWORD2" : String) ≠ "RESTIC_PASSWORD" := by decide
  have hne2 : ("RESTIC_PASSWORD" : String) ≠ "RESTIC_PASSWORD2" := by decide
  simp only [processRepo, prepareEnv, applyCredentials, applyDuplicateCredentials,
    actionStep, createInvocations, hc, hd, hsrc, hk, hks, if_neg hb, if_neg hs3,
    reduceCtorEq, reduceIte, envGet_set_self, envGet_set_ne _ _ _ _ hne,
    envGet_set_ne _ _ _ _ hne2] at hR hC
  obtain rfl := (Option.some.injEq _ _).mp hR
  obtain rfl := (Option.some.injEq _ _).mp hC
  constructor <;>
    simp [envGet_set_self, envGet_set_ne _ _ _ _ hne, envGet_set_ne _ _ _ _ hne2]

/-- Source and duplicate-target repositories of the C9 witness. -/
def reposC9w : List (String × RepoConfig) :=
  [("rsrc", { location := "/srv/rsrc", key := Credential.plain "psrc",
              includes := ["/s"] }),
   ("rdup", { location := "/srv/rdup", key := Credential.plain "pdup",
              duplicate := some "rsrc" })]

/-- All-quiet world for the C9 witness. -/
def worldC9w : World :=
  { exec := fun _ _ => ⟨0, "", ""⟩, parseJson := fun _ => none }

/-- The round of the run action on the duplicate target. -/
def soC9runw : StepOut :=
  match processRepo "restic" reposC9w ⟨Action.run, false, false⟩
      ⟨2021, 3, 4, 12, 0, 0⟩ worldC9w [] "rdup" with
  | some so => so
  | none => ⟨[], [], ⟨0, "", ""⟩, "", "", ⟨0, "", ""⟩⟩

/-- The round of the create action on the duplicate target. -/
def soC9createw : StepOut :=
  match processRepo "restic" reposC9w ⟨Action.create, false, false⟩
      ⟨2021, 3, 4, 12, 0, 0⟩ worldC9w [] "rdup" with
  | some so => so
  | none => ⟨[], [], ⟨0, "", ""⟩, "", "", ⟨0, "", ""⟩⟩

/-- Witness for C9 at a concrete source/duplicate pair. -/
theorem duplicate_run_swaps_passphrases_witness :
    (soC9runw.invocations.head?.map (fun i =>
        (envGet (Invocation.env i) "RESTIC_PASSWORD",
         envGet (Invocation.env i) "RESTIC_PASSWORD2"))) =
      some (some (Credential.plain "psrc"), some (Credential.plain "pdup")) ∧
    (soC9createw.invocations.head?.map (fun i =>
        (envGet (Invocation.env i) "RESTIC_PASSWORD",
         envGet (Invocation.env i) "RESTIC_PASSWORD2"))) =
      some (some (Credential.plain "pdup"), some (Credential.plain "psrc")) :=
  duplicate_run_swaps_passphrases "restic" reposC9w false false false false
    ⟨2021, 3, 4, 12, 0, 0⟩ worldC9w [] "rdup" "rsrc"
    ⟨"/srv/rdup", Credential.plain "pdup", some "rsrc", 0, 0, [], []⟩
    ⟨"/srv/rsrc", Credential.plain "psrc", none, 0, 0, ["/s"], []⟩
    "pdup" "psrc" soC9runw soC9createw
    (by decide) (by decide) (by decide) (by decide) (by decide) (by decide)
    (by decide) (by decide) (by decide)

/-! ### Timestamp truncation -/

/-- The decimal digit character for n (n at most 9). -/
def digitChar (n : Nat) : Char := Char.ofNat (48 + n)

/-- Zero-padded two-digit character rendering. -/
def pad2ch (n : Nat) : List Char := [digitChar (n / 10), digitChar (n % 10)]

/-- Zero-padded four-digit character rendering. -/
def pad4ch (n : Nat) : List Char :=
  [digitChar (n / 1000), digitChar (n / 100 % 10), digitChar (n / 10 % 10),
   digitChar (n % 10)]

/-- The standard 19-character timestamp form YYYY-MM-DDTHH:MM:SS. -/
def canonicalTimestamp (y mo d h mi s : Nat) : String :=
  String.mk (pad4ch y ++ '-' :: pad2ch mo ++ '-' :: pad2ch d ++ 'T' :: pad2ch h ++
    ':' :: pad2ch mi ++ ':' :: pad2ch s)

theorem digitChar_isDigit (n : Nat) (h : n ≤ 9) : (digitChar n).isDigit = true := by
  interval_cases n <;> decide

theorem digitChar_toNat (n : Nat) (h : n ≤ 9) : (digitChar n).toNat = 48 + n := by
  interval_cases n <;> decide

theorem grabDigitsAux_zero (acc : Nat) (cs : List Char) :
    grabDigitsAux 0 acc cs = (acc, cs) := rfl

theorem grabDigitsAux_succ_digit (n acc : Nat) (c : Char) (rest : List Char)
    (h : c.isDigit = true) :
    grabDigitsAux (n + 1) acc (c :: rest) =
      grabDigitsAux n (10 * acc + (c.toNat - 48)) rest := by
  simp [grabDigitsAux, h]

theorem grabDigitsAux_succ_nil (n acc : Nat) :
    grabDigitsAux (n + 1) acc [] = (acc, []) := rfl

/-- The %Y directive on four digit characters yields the four-digit
value. -/
theorem grabDigits4_canonical (a b c d : Nat) (rest : List Char)
    (ha : a ≤ 9) (hb : b ≤ 9) (hc : c ≤ 9) (hd : d ≤ 9) :
    grabDigits4 (digitChar a :: digitChar b :: digitChar c :: digitChar d :: rest) =
      some (((a * 10 + b) * 10 + c) * 10 + d, rest) := by
  simp only [grabDigits4, digitChar_isDigit a ha, digitChar_isDigit b hb,
    digitChar_isDigit c hc, digitChar_isDigit d hd, digitChar_toNat a ha,
    digitChar_toNat b hb, digitChar_toNat c hc, digitChar_toNat d hd,
    eq_self_iff_true, and_self, if_true, ite_true]
  have hval : (((48 + a - 48) * 10 + (48 + b - 48)) * 10 + (48 + c - 48)) * 10 +
      (48 + d - 48) = ((a * 10 + b) * 10 + c) * 10 + d := by omega
  rw [hval]

/-- A width-2 numeric directive on two digit characters yields the
two-digit value (the following character is never inspected). -/
theorem grabDigits_two (a b : Nat) (rest : List Char) (ha : a ≤ 9) (hb : b ≤ 9) :
    grabDigits 2 (digitChar a :: digitChar b :: rest) = some (10 * a + b, rest) := by
  simp only [grabDigits, digitChar_isDigit a ha, if_true, ite_true]
  rw [grabDigitsAux_succ_digit _ _ _ _ (digitChar_isDigit a ha)]
  rw [grabDigitsAux_succ_digit _ _ _ _ (digitChar_isDigit b hb)]
  rw [grabDigitsAux_zero, digitChar_toNat a ha, digitChar_toNat b hb]
  have hval : 10 * (10 * 0 + (48 + a - 48)) + (48 + b - 48) = 10 * a + b := by omega
  rw [hval]

/-- A width-2 numeric directive on a single trailing digit character
yields that digit (this is what the truncated seconds field hits). -/
theorem grabDigits_one_end (a : Nat) (ha : a ≤ 9) :
    grabDigits 2 [digitChar a] = some (a, []) := by
  simp only [grabDigits, digitChar_isDigit a ha, if_true, ite_true]
  rw [grabDigitsAux_succ_digit _ _ _ _ (digitChar_isDigit a ha)]
  rw [grabDigitsAux_succ_nil, digitChar_toNat a ha]
  have hval : 10 * 0 + (48 + a - 48) = a := by omega
  rw [hval]

theorem expectChar_cons_self (c : Char) (rest : List Char) :
    expectChar c (c :: rest) = some rest := by
  simp [expectChar]

/-- No month has more than 31 days. -/
theorem daysInMonth_le_31 (y mo : Nat) : daysInMonth y mo ≤ 31 := by
  simp only [daysInMonth]
  split_ifs <;> omega

/-- Parsing the full 19-character canonical timestamp recovers all six
fields. -/
theorem strptime_canonical_full (y mo d h mi s : Nat)
    (hy2 : y ≤ 9999) (hmo1 : 1 ≤ mo) (hmo2 : mo ≤ 12) (hd1 : 1 ≤ d)
    (hd2 : d ≤ daysInMonth y mo) (hh : h ≤ 23) (hmi : mi ≤ 59) (hs : s ≤ 59) :
    strptimeYmdHms (canonicalTimestamp y mo d h mi s) = some ⟨y, mo, d, h, mi, s⟩ := by
  have hb1 : y / 1000 ≤ 9 := by omega
  have hb2 : y / 100 % 10 ≤ 9 := by omega
  have hb3 : y / 10 % 10 ≤ 9 := by omega
  have hb4 : y % 10 ≤ 9 := by omega
  have hb5 : mo / 10 ≤ 9 := by omega
  have hb6 : mo % 10 ≤ 9 := by omega
  have hd31 : d ≤ 31 := le_trans hd2 (daysInMonth_le_31 y mo)
  have hb7 : d / 10 ≤ 9 := by omega
  have hb8 : d % 10 ≤ 9 := by omega
  have hb9 : h / 10 ≤ 9 := by omega
  have hb10 : h % 10 ≤ 9 := by omega
  have hb11 : mi / 10 ≤ 9 := by omega
  have hb12 : mi % 10 ≤ 9 := by omega
  have hb13 : s / 10 ≤ 9 := by omega
  have hb14 : s % 10 ≤ 9 := by omega
  have hvy : ((y / 1000 * 10 + y / 100 % 10) * 10 + y / 10 % 10) * 10 + y % 10 = y := by
    omega
  have hvmo : 10 * (mo / 10) + mo % 10 = mo := by omega
  have hvd : 10 * (d / 10) + d % 10 = d := by omega
  have hvh : 10 * (h / 10) + h % 10 = h := by omega
  have hvmi : 10 * (mi / 10) + mi % 10 = mi := by omega
  have hvs : 10 * (s / 10) + s % 10 = s := by omega
  have hts : (canonicalTimestamp y mo d h mi s).toList =
      digitChar (y / 1000) :: digitChar (y / 100 % 10) :: digitChar (y / 10 % 10) ::
      digitChar (y % 10) :: '-' :: digitChar (mo / 10) :: digitChar (mo % 10) ::
      '-' :: digitChar (d / 10) :: digitChar (d % 10) :: 'T' ::
      digitChar (h / 10) :: digitChar (h % 10) :: ':' ::
      digitChar (mi / 10) :: digitChar (mi % 10) :: ':' ::
      digitChar (s / 10) :: digitChar (s % 10) :: [] := rfl
  simp only [strptimeYmdHms, hts, grabDigits4_canonical, grabDigits_two,
    expectChar_cons_self, hb1, hb2, hb3, hb4, hb5, hb6, hb7, hb8, hb9, hb10,
    hb11, hb12, hb13, hb14, hvy, hvmo, hvd, hvh, hvmi, hvs,
    hmo1, hmo2, hd1, hd2, hh, hmi, hs,
    eq_self_iff_true, and_self, and_true, true_and, if_true, ite_true]

/-- Parsing the 18-character truncation of the canonical timestamp
yields the tens digit of the seconds as the seconds value. -/
theorem strptime_canonical_trunc (y mo d h mi s : Nat)
    (hy2 : y ≤ 9999) (hmo1 : 1 ≤ mo) (hmo2 : mo ≤ 12) (hd1 : 1 ≤ d)
    (hd2 : d ≤ daysInMonth y mo) (hh : h ≤ 23) (hmi : mi ≤ 59) (hs : s ≤ 59) :
    strptimeYmdHms (String.take (canonicalTimestamp y mo d h mi s) 18) =
      some ⟨y, mo, d, h, mi, s / 10⟩ := by
  have hb1 : y / 1000 ≤ 9 := by omega
  have hb2 : y / 100 % 10 ≤ 9 := by omega
  have hb3 : y / 10 % 10 ≤ 9 := by omega
  have hb4 : y % 10 ≤ 9 := by omega
  have hb5 : mo / 10 ≤ 9 := by omega
  have hb6 : mo % 10 ≤ 9 := by omega
  have hd31 : d ≤ 31 := le_trans hd2 (daysInMonth_le_31 y mo)
  have hb7 : d / 10 ≤ 9 := by omega
  have hb8 : d % 10 ≤ 9 := by omega
  have hb9 : h / 10 ≤ 9 := by omega
  have hb10 : h % 10 ≤ 9 := by omega
  have hb11 : mi / 10 ≤ 9 := by omega
  have hb12 : mi % 10 ≤ 9 := by omega
  have hb13 : s / 10 ≤ 9 := by omega
  have hsd : s / 10 ≤ 59 := by omega
  have hvy : ((y / 1000 * 10 + y / 100 % 10) * 10 + y / 10 % 10) * 10 + y % 10 = y := by
    omega
  have hvmo : 10 * (mo / 10) + mo % 10 = mo := by omega
  have hvd : 10 * (d / 10) + d % 10 = d := by omega
  have hvh : 10 * (h / 10) + h % 10 = h := by omega
  have hvmi : 10 * (mi / 10) + mi % 10 = mi := by omega
  have hts : (String.take (canonicalTimestamp y mo d h mi s) 18).toList =
      digitChar (y / 1000) :: digitChar (y / 100 % 10) :: digitChar (y / 10 % 10) ::
      digitChar (y % 10) :: '-' :: digitChar (mo / 10) :: digitChar (mo % 10) ::
      '-' :: digitChar (d / 10) :: digitChar (d % 10) :: 'T' ::
      digitChar (h / 10) :: digitChar (h % 10) :: ':' ::
      digitChar (mi / 10) :: digitChar (mi % 10) :: ':' ::
      digitChar (s / 10) :: [] := by
    rw [String.take_eq]
    rfl
  simp only [strptimeYmdHms, hts, grabDigits4_canonical, grabDigits_two,
    grabDigits_one_end, expectChar_cons_self, hb1, hb2, hb3, hb4, hb5, hb6, hb7,
    hb8, hb9, hb10, hb11, hb12, hb13, hsd, hvy, hvmo, hvd, hvh, hvmi,
    hmo1, hmo2, hd1, hd2, hh, hmi,
    eq_self_iff_true, and_self, and_true, true_and, if_true, ite_true]

/-- C10 counterexample: with seconds 59, the truncated parse reads 5
seconds, so the computed age is off by 54 seconds, not at most 9. -/
theorem truncation_error_exceeds_nine_seconds :
    strptimeYmdHms (String.take "2021-02-04T12:00:59" 18) =
      some ⟨2021, 2, 4, 12, 0, 5⟩ ∧
    strptimeYmdHms "2021-02-04T12:00:59" = some ⟨2021, 2, 4, 12, 0, 59⟩ ∧
    Datetime.toSecs ⟨2021, 2, 4, 12, 0, 59⟩ -
      Datetime.toSecs ⟨2021, 2, 4, 12, 0, 5⟩ = 54 ∧
    ¬ (54 : Nat) ≤ 9 := by
  decide

/-- C10 as amended: the timestamp string is truncated to its first 18
characters before parsing, for a standard 19-character timestamp the
parsed seconds equal the tens digit of the actual seconds, and the
resulting age error is s - s / 10 seconds, which can reach 54 (not
just 9). -/
theorem truncation_parses_tens_digit_error_le_54 (y mo d h mi s : Nat)
    (now : Datetime)
    (hy2 : y ≤ 9999) (hmo1 : 1 ≤ mo) (hmo2 : mo ≤ 12) (hd1 : 1 ≤ d)
    (hd2 : d ≤ daysInMonth y mo) (hh : h ≤ 23) (hmi : mi ≤ 59) (hs : s ≤ 59) :
    strptimeYmdHms (String.take (canonicalTimestamp y mo d h mi s) 18) =
      some ⟨y, mo, d, h, mi, s / 10⟩ ∧
    strptimeYmdHms (canonicalTimestamp y mo d h mi s) = some ⟨y, mo, d, h, mi, s⟩ ∧
    ((now.toSecs : Int) - ((Datetime.mk y mo d h mi (s / 10)).toSecs : Int)) -
        ((now.toSecs : Int) - ((Datetime.mk y mo d h mi s).toSecs : Int)) =
      (s : Int) - ((s / 10 : Nat) : Int) ∧
    (s : Int) - ((s / 10 : Nat) : Int) ≤ 54 := by
  refine ⟨strptime_canonical_trunc y mo d h mi s hy2 hmo1 hmo2 hd1 hd2 hh hmi hs,
          strptime_canonical_full y mo d h mi s hy2 hmo1 hmo2 hd1 hd2 hh hmi hs,
          ?_, ?_⟩
  · simp only [Datetime.toSecs]
    push_cast
    ring
  · omega

/-- Witness for the amended C10 at seconds 59 (error 54). -/
theorem truncation_parses_tens_digit_error_le_54_witness :
    strptimeYmdHms (String.take (canonicalTimestamp 2021 2 4 12 0 59) 18) =
      some ⟨2021, 2, 4, 12, 0, 59 / 10⟩ ∧
    strptimeYmdHms (canonicalTimestamp 2021 2 4 12 0 59) =
      some ⟨2021, 2, 4, 12, 0, 59⟩ ∧
    (((Datetime.mk 2021 3 4 12 0 0).toSecs : Int) -
        ((Datetime.mk 2021 2 4 12 0 (59 / 10)).toSecs : Int)) -
        (((Datetime.mk 2021 3 4 12 0 0).toSecs : Int) -
         ((Datetime.mk 2021 2 4 12 0 59).toSecs : Int)) =
      ((59 : Nat) : Int) - (((59 : Nat) / 10 : Nat) : Int) ∧
    ((59 : Nat) : Int) - (((59 : Nat) / 10 : Nat) : Int) ≤ 54 :=
  truncation_parses_tens_digit_error_le_54 2021 2 4 12 0 59 ⟨2021, 3, 4, 12, 0, 0⟩
    (by decide) (by decide) (by decide) (by decide) (by decide) (by decide)
    (by decide) (by decide)

end ResticPyBM
